import Mathlib

/-!
Shallow embedding of the transactional-consistency and fault-recovery
subsystem (two-phase commit, recovery log, vector clocks, distributed
shared memory, replication) of the Capstone repository, together with
theorems settling the specification claims.

Python dictionaries are modelled as association lists over `String`
keys; a key occurs at most once in every state reachable by the
operations below, and lookup takes the first binding, which matches
dict semantics.  Wall-clock readings (`time.time()`) are modelled as
explicit `Nat` arguments: only their relative order matters to the
code.  Opaque operation dictionaries are modelled by `String`.
-/

namespace Capstone

/-- Dict lookup: first binding for the key, as `dict.get(k)` returning
`None` when absent. -/
def lookupA {α : Type} : List (String × α) → String → Option α
  | [], _ => none
  | p :: l, k => if p.1 == k then some p.2 else lookupA l k

/-- Dict assignment `d[k] = v`: replace the existing binding in place,
or append a new binding (Python dicts keep insertion order). -/
def insertA {α : Type} : List (String × α) → String → α → List (String × α)
  | [], k, v => [(k, v)]
  | p :: l, k, v => if p.1 == k then (k, v) :: l else p :: insertA l k v

theorem lookupA_insertA_self {α : Type} (l : List (String × α)) (k : String) (v : α) :
    lookupA (insertA l k v) k = some v := by
  induction l with
  | nil => simp [insertA, lookupA]
  | cons p l ih =>
    by_cases hp : p.1 == k
    · simp [insertA, hp, lookupA]
    · simp [insertA, hp, lookupA, ih]

theorem lookupA_insertA_ne {α : Type} (l : List (String × α)) (k k2 : String) (v : α)
    (h : (k == k2) = false) : lookupA (insertA l k v) k2 = lookupA l k2 := by
  induction l with
  | nil => simp [insertA, lookupA, h]
  | cons p l ih =>
    by_cases hp : p.1 == k
    · have hpk : p.1 = k := by simpa using hp
      simp [insertA, hp, lookupA, h, hpk]
    · by_cases hq : p.1 == k2
      · simp [insertA, hp, lookupA, hq]
      · simp [insertA, hp, lookupA, hq, ih]

/-! ## VectorClock (src/communication/event_ordering.py)

A clock value is the raw dict `node-id → int`; `VectorClock` packages
it with the owning node id, as the Python class does. -/

/-- `clock.get(node_id, 0)`: absent entries read as 0. -/
def clockGet (c : List (String × Nat)) (k : String) : Nat :=
  (lookupA c k).getD 0

/-- The iteration domain `set(self.clock.keys()) | set(other_clock.keys())`
of `happened_before`; only membership matters to the loop's result. -/
def clockNodes (a b : List (String × Nat)) : List String :=
  a.map Prod.fst ++ b.map Prod.fst

/-- `VectorClock.happened_before`: the loop returns `False` as soon as a
component of `self` exceeds `other`, and otherwise reports whether some
component was strictly below; net result: all components `≤` and at
least one `<`. -/
def happened_before (self_clock other_clock : List (String × Nat)) : Bool :=
  ((clockNodes self_clock other_clock).all fun i =>
      clockGet self_clock i ≤ clockGet other_clock i) &&
  ((clockNodes self_clock other_clock).any fun i =>
      clockGet self_clock i < clockGet other_clock i)

/-- `VectorClock._other_happened_before`: same loop with the comparison
directions swapped. -/
def other_happened_before (self_clock other_clock : List (String × Nat)) : Bool :=
  ((clockNodes self_clock other_clock).all fun i =>
      clockGet other_clock i ≤ clockGet self_clock i) &&
  ((clockNodes self_clock other_clock).any fun i =>
      clockGet other_clock i < clockGet self_clock i)

/-- `VectorClock.concurrent`: neither happened before the other. -/
def concurrent (self_clock other_clock : List (String × Nat)) : Bool :=
  !(happened_before self_clock other_clock) &&
  !(other_happened_before self_clock other_clock)

/-- The `VectorClock` object: owning node id plus the dict, initialised
to `{node_id: 0}` by `__init__`. -/
structure VectorClock where
  node_id : String
  clock : List (String × Nat)
deriving DecidableEq

/-- `VectorClock(node_id)`. -/
def VectorClock.init (n : String) : VectorClock :=
  ⟨n, [(n, 0)]⟩

/-- `VectorClock.tick`: increment the own component. -/
def VectorClock.tick (vc : VectorClock) : VectorClock :=
  { vc with clock := insertA vc.clock vc.node_id (clockGet vc.clock vc.node_id + 1) }

/-- `VectorClock.update`: componentwise max over the other dict's
entries, in its iteration order. -/
def VectorClock.updateClock (vc : VectorClock) (other : List (String × Nat)) : VectorClock :=
  { vc with clock :=
      other.foldl (fun acc p => insertA acc p.1 (max (clockGet acc p.1) p.2)) vc.clock }

/-! ## DistributedSharedMemory (src/communication/dsm.py) -/

/-- `DSMEntry`: note `version` starts at 0 in `__init__` and the only
increment is in `update`, guarded by a strictly newer timestamp. -/
structure DSMEntry (V : Type) where
  key : String
  value : V
  timestamp : Nat
  node_id : String
  version : Nat
deriving DecidableEq

/-- `DSMEntry.update`: apply the write only when the incoming timestamp
is strictly greater, bumping `version` by one. -/
def DSMEntry.updateE {V : Type} (e : DSMEntry V) (v : V) (t : Nat) (n : String) : DSMEntry V :=
  if e.timestamp < t then
    { e with value := v, timestamp := t, node_id := n, version := e.version + 1 }
  else e

/-- `DistributedSharedMemory` state; update callbacks are omitted (none
are registered in the executions considered and they do not touch the
store's own state). -/
structure DistributedSharedMemory (V : Type) where
  node_id : String
  memory : List (String × DSMEntry V)
  vector_clock : VectorClock
  consistency_level : String
deriving DecidableEq

/-- `DistributedSharedMemory(node_id)`: empty memory, fresh clock,
default consistency level `"weak"`. -/
def DistributedSharedMemory.init (V : Type) (n : String) : DistributedSharedMemory V :=
  ⟨n, [], VectorClock.init n, "weak"⟩

/-- `DistributedSharedMemory.set`: tick the clock, then update the
existing entry in place or create a fresh entry with `version = 0`.
The wall-clock reading `time.time()` is the argument `t`. -/
def DistributedSharedMemory.set {V : Type} (m : DistributedSharedMemory V)
    (k : String) (v : V) (t : Nat) : DistributedSharedMemory V :=
  let m2 := { m with vector_clock := m.vector_clock.tick }
  match lookupA m2.memory k with
  | some e => { m2 with memory := insertA m2.memory k (e.updateE v t m2.node_id) }
  | none => { m2 with memory := m2.memory ++ [(k, ⟨k, v, t, m2.node_id, 0⟩)] }

/-- `DistributedSharedMemory.get`. -/
def DistributedSharedMemory.get {V : Type} (m : DistributedSharedMemory V)
    (k : String) : Option V :=
  (lookupA m.memory k).map (fun e => e.value)

/-- Observation of the stored entry's version counter (spec-level
accessor over the `DSMEntry.version` field). -/
def DistributedSharedMemory.getVersion {V : Type} (m : DistributedSharedMemory V)
    (k : String) : Option Nat :=
  (lookupA m.memory k).map (fun e => e.version)

/-- `DistributedSharedMemory.update_from_remote`: merge the remote
clock unconditionally, then branch on the consistency level.  `now`
models the `time.time()` reading of the nested `self.set` call on the
strong/causal apply paths. -/
def DistributedSharedMemory.update_from_remote {V : Type} (m : DistributedSharedMemory V)
    (k : String) (v : V) (t : Nat) (origin : String)
    (rclock : List (String × Nat)) (now : Nat) : DistributedSharedMemory V :=
  let m2 := { m with vector_clock := m.vector_clock.updateClock rclock }
  if m2.consistency_level == "strong" then
    match lookupA m2.memory k with
    | none => m2.set k v now
    | some e => if e.timestamp < t then m2.set k v now else m2
  else if m2.consistency_level == "causal" then
    if happened_before m2.vector_clock.clock rclock then m2.set k v now else m2
  else
    match lookupA m2.memory k with
    | none => { m2 with memory := m2.memory ++ [(k, ⟨k, v, t, origin, 0⟩)] }
    | some e => { m2 with memory := insertA m2.memory k (e.updateE v t origin) }

/-! ## TwoPhaseCommit (src/transactions/two_phase_commit.py)

The coordinator's `send_message_callback` is modelled as an outbox
list `sent`: every message handed to the callback is appended in
order.  The `time.sleep(0.1)` wait window of phase 1 is modelled by an
explicit list `arriving` of votes recorded (via `record_vote`) while
the coordinator sleeps; a purely sequential run has `arriving = []`.
Wall-clock `start_time`/`end_time` fields are abstracted away. -/

/-- The `TransactionState` enum. -/
inductive TransactionState where
  | initial
  | preparing
  | prepared
  | committing
  | committed
  | aborting
  | aborted
  | wait
deriving DecidableEq

/-- An operation dict (opaque to the protocol: `_validate_operations`
and `_execute_operations` always succeed). -/
abbrev Operation := String

/-- A message handed to `send_message_callback`, reduced to the fields
the protocol writes: receiver and payload. `operations` is `[]` for
COMMIT/ABORT payloads. -/
structure SentMsg where
  receiver : String
  ptype : String
  transaction_id : String
  operations : List Operation
deriving DecidableEq

/-- The per-transaction record kept in `self.transactions`. -/
structure TxnRecord where
  participants : List String
  operations : List Operation
  state : TransactionState
deriving DecidableEq

/-- `TwoPhaseCommit` coordinator state. -/
structure TwoPhaseCommit where
  node_id : String
  transactions : List (String × TxnRecord)
  votes : List (String × List (String × String))
  sent : List SentMsg
deriving DecidableEq

/-- `TwoPhaseCommit(node_id)`. -/
def TwoPhaseCommit.init (n : String) : TwoPhaseCommit :=
  ⟨n, [], [], []⟩

/-- `self.transactions[tid]["state"] = s` (always called with `tid`
present; absent is a no-op totalisation). -/
def TwoPhaseCommit.setState (st : TwoPhaseCommit) (tid : String)
    (s : TransactionState) : TwoPhaseCommit :=
  match lookupA st.transactions tid with
  | some r => { st with transactions := insertA st.transactions tid { r with state := s } }
  | none => st

/-- `TwoPhaseCommit.record_vote`. -/
def TwoPhaseCommit.record_vote (st : TwoPhaseCommit) (tid participant vote : String) :
    TwoPhaseCommit :=
  let cur := (lookupA st.votes tid).getD []
  { st with votes := insertA st.votes tid (insertA cur participant vote) }

/-- `TwoPhaseCommit._phase1_voting`: mark PREPARING, send PREPARE to
every participant, let `arriving` votes land during the sleep, then
fill every missing participant vote with `"COMMIT"` ("For now, we
simulate that all participants vote COMMIT") and return `True`. -/
def TwoPhaseCommit.phase1_voting (st : TwoPhaseCommit) (tid : String)
    (participants : List String) (operations : List Operation)
    (arriving : List (String × String)) : TwoPhaseCommit × Bool :=
  let st1 := st.setState tid .preparing
  let st2 := participants.foldl
    (fun acc p => { acc with sent := acc.sent ++ [⟨p, "PREPARE", tid, operations⟩] }) st1
  let st3 := arriving.foldl (fun acc pv => acc.record_vote tid pv.1 pv.2) st2
  let st4 := participants.foldl
    (fun acc p =>
      let cur := (lookupA acc.votes tid).getD []
      if (lookupA cur p).isNone then
        { acc with votes := insertA acc.votes tid (insertA cur p "COMMIT") }
      else acc) st3
  (st4, true)

/-- `TwoPhaseCommit._phase2_commit`: mark COMMITTING, send COMMIT to
every participant, mark COMMITTED, return `True`. -/
def TwoPhaseCommit.phase2_commit (st : TwoPhaseCommit) (tid : String)
    (participants : List String) : TwoPhaseCommit × Bool :=
  let st1 := st.setState tid .committing
  let st2 := participants.foldl
    (fun acc p => { acc with sent := acc.sent ++ [⟨p, "COMMIT", tid, []⟩] }) st1
  (st2.setState tid .committed, true)

/-- `TwoPhaseCommit._abort_transaction`: mark ABORTING, send ABORT to
the recorded participants, mark ABORTED. -/
def TwoPhaseCommit.abort_transaction (st : TwoPhaseCommit) (tid : String) :
    TwoPhaseCommit :=
  let st1 := st.setState tid .aborting
  let participants := ((lookupA st1.transactions tid).map (fun r => r.participants)).getD []
  let st2 := participants.foldl
    (fun acc p => { acc with sent := acc.sent ++ [⟨p, "ABORT", tid, []⟩] }) st1
  st2.setState tid .aborted

/-- `TwoPhaseCommit.execute`: register the transaction, reset its vote
dict to `{}`, run phase 1, then count `"COMMIT"` votes against the
participant count and run phase 2 commit or abort. -/
def TwoPhaseCommit.execute (st : TwoPhaseCommit) (tid : String)
    (participants : List String) (operations : List Operation)
    (arriving : List (String × String)) : TwoPhaseCommit × Bool :=
  let st1 := { st with
    transactions := insertA st.transactions tid ⟨participants, operations, .initial⟩,
    votes := insertA st.votes tid [] }
  let res := st1.phase1_voting tid participants operations arriving
  if res.2 = false then (res.1.abort_transaction tid, false)
  else
    let commit_votes := ((lookupA res.1.votes tid).getD []).countP
      (fun pv => pv.2 == "COMMIT")
    if commit_votes = participants.length then res.1.phase2_commit tid participants
    else (res.1.abort_transaction tid, false)

/-! ## TransactionManager (src/transactions/transaction_manager.py)

`generate_transaction_id()` (a uuid) is modelled as an explicit `tid`
argument to `begin_transaction`; wall-clock timestamps and durations
in the history summaries are abstracted away. -/

/-- The `Transaction` object. -/
structure Transaction where
  transaction_id : String
  coordinator_id : String
  participants : List String
  operations : List Operation
  state : TransactionState
deriving DecidableEq

/-- `Transaction.add_participant`: append if not already present. -/
def Transaction.add_participant (t : Transaction) (p : String) : Transaction :=
  if p ∈ t.participants then t else { t with participants := t.participants ++ [p] }

/-- `Transaction.add_operation`. -/
def Transaction.add_operation (t : Transaction) (op : Operation) : Transaction :=
  { t with operations := t.operations ++ [op] }

/-- `Transaction.set_state`: unconditional assignment (the source has
no terminal-state guard). -/
def Transaction.set_state (t : Transaction) (s : TransactionState) : Transaction :=
  { t with state := s }

/-- A `_log_transaction` history summary (timestamps omitted). -/
structure LogSummary where
  transaction_id : String
  coordinator : String
  participants : List String
  operations : List Operation
  status : String
deriving DecidableEq

/-- `TransactionManager` state. -/
structure TransactionManager where
  node_id : String
  transactions : List (String × Transaction)
  active_transactions : List String
  two_phase_commit : TwoPhaseCommit
  transaction_log : List LogSummary
deriving DecidableEq

/-- `TransactionManager(node_id)`. -/
def TransactionManager.init (n : String) : TransactionManager :=
  ⟨n, [], [], TwoPhaseCommit.init n, []⟩

/-- `TransactionManager._log_transaction`: append a summary and keep
only the last 1000 entries. -/
def TransactionManager.log_transaction (tm : TransactionManager)
    (t : Transaction) (status : String) : TransactionManager :=
  let l := tm.transaction_log ++
    [⟨t.transaction_id, t.coordinator_id, t.participants, t.operations, status⟩]
  { tm with transaction_log := if 1000 < l.length then l.drop (l.length - 1000) else l }

/-- `TransactionManager.begin_transaction`: create the transaction,
register the participants (deduplicated), add to the active set and
return the id.  No validation of the participant list is performed. -/
def TransactionManager.begin_transaction (tm : TransactionManager)
    (tid : String) (participants : List String) : TransactionManager × String :=
  let txn := participants.foldl Transaction.add_participant
    ⟨tid, tm.node_id, [], [], .initial⟩
  let tm2 := { tm with
    transactions := insertA tm.transactions tid txn,
    active_transactions :=
      if tid ∈ tm.active_transactions then tm.active_transactions
      else tm.active_transactions ++ [tid] }
  (tm2, tid)

/-- `TransactionManager.execute_transaction`: unknown ids return
`False` before any mutation; otherwise add the operations, delegate to
`TwoPhaseCommit.execute`, set the terminal state, drop the id from the
active set and append a history summary. -/
def TransactionManager.execute_transaction (tm : TransactionManager)
    (tid : String) (operations : List Operation)
    (arriving : List (String × String)) : TransactionManager × Bool :=
  match lookupA tm.transactions tid with
  | none => (tm, false)
  | some txn0 =>
    let txn1 := operations.foldl Transaction.add_operation txn0
    let tm1 := { tm with transactions := insertA tm.transactions tid txn1 }
    let res := tm1.two_phase_commit.execute tid txn1.participants operations arriving
    let tm2 := { tm1 with two_phase_commit := res.1 }
    let txn2 := txn1.set_state (if res.2 then .committed else .aborted)
    let tm3 := { tm2 with
      transactions := insertA tm2.transactions tid txn2,
      active_transactions := tm2.active_transactions.filter (fun x => x != tid) }
    (tm3.log_transaction txn2 (if res.2 then "COMMITTED" else "ABORTED"), res.2)

/-- `TransactionManager.abort_transaction`: unknown ids are a no-op;
otherwise set ABORTED unconditionally (also on a COMMITTED
transaction), drop from the active set, append a summary. -/
def TransactionManager.abort_transaction (tm : TransactionManager)
    (tid : String) : TransactionManager :=
  match lookupA tm.transactions tid with
  | none => tm
  | some txn0 =>
    let txn1 := txn0.set_state .aborted
    let tm1 := { tm with
      transactions := insertA tm.transactions tid txn1,
      active_transactions := tm.active_transactions.filter (fun x => x != tid) }
    tm1.log_transaction txn1 "ABORTED"

/-! ## Recovery (src/transactions/recovery.py) -/

/-- A recovery-log entry dict; `etype` is the `"type"` key, `status`
is present only on COMMIT/ABORT entries, `participants` only on START
entries (wall-clock `timestamp` omitted). -/
structure LogEntry where
  etype : String
  transaction_id : String
  status : Option String
  participants : List String
  node_id : String
deriving DecidableEq

/-- `TransactionLog`: the append-only in-memory list. -/
structure TransactionLog where
  log : List LogEntry
deriving DecidableEq

/-- `TransactionLog.append`. -/
def TransactionLog.append (tl : TransactionLog) (e : LogEntry) : TransactionLog :=
  { tl with log := tl.log ++ [e] }

/-- `TransactionLog.get_transaction_entries`. -/
def TransactionLog.get_transaction_entries (tl : TransactionLog)
    (tid : String) : List LogEntry :=
  tl.log.filter (fun e => e.transaction_id == tid)

/-- `TransactionLog.get_uncommitted_transactions`: collect, without
duplicates, every transaction id carried by an entry whose `status`
field is neither `"COMMITTED"` nor `"ABORTED"` (START and PREPARE
entries have no status field, so they always qualify); empty-string
ids are falsy in Python and skipped. -/
def TransactionLog.get_uncommitted_transactions (tl : TransactionLog) : List String :=
  tl.log.foldl
    (fun acc e =>
      if e.transaction_id != "" && e.status != some "COMMITTED" &&
         e.status != some "ABORTED" && !(acc.contains e.transaction_id) then
        acc ++ [e.transaction_id]
      else acc) []

/-- `RecoveryManager` state. -/
structure RecoveryManager where
  node_id : String
  transaction_log : TransactionLog
deriving DecidableEq

/-- `RecoveryManager(node_id)`. -/
def RecoveryManager.init (n : String) : RecoveryManager :=
  ⟨n, ⟨[]⟩⟩

/-- `RecoveryManager.log_transaction_start`. -/
def RecoveryManager.log_transaction_start (rm : RecoveryManager)
    (tid : String) (participants : List String) : RecoveryManager :=
  { rm with transaction_log :=
      rm.transaction_log.append ⟨"START", tid, none, participants, rm.node_id⟩ }

/-- `RecoveryManager.log_prepare`. -/
def RecoveryManager.log_prepare (rm : RecoveryManager) (tid : String) : RecoveryManager :=
  { rm with transaction_log := rm.transaction_log.append ⟨"PREPARE", tid, none, [], rm.node_id⟩ }

/-- `RecoveryManager.log_commit`. -/
def RecoveryManager.log_commit (rm : RecoveryManager) (tid : String) : RecoveryManager :=
  { rm with transaction_log :=
      rm.transaction_log.append ⟨"COMMIT", tid, some "COMMITTED", [], rm.node_id⟩ }

/-- `RecoveryManager.log_abort`. -/
def RecoveryManager.log_abort (rm : RecoveryManager) (tid : String) : RecoveryManager :=
  { rm with transaction_log :=
      rm.transaction_log.append ⟨"ABORT", tid, some "ABORTED", [], rm.node_id⟩ }

/-- A node's transactional state together with its recovery manager.
In the repository nothing wires the two: neither
`TransactionManager.execute_transaction` nor any function of
`TwoPhaseCommit` calls any `RecoveryManager`/`TransactionLog` method
(`RecoveryManager` has no callers outside recovery.py), so executing a
transaction leaves the recovery log untouched. -/
structure NodeSystem where
  tm : TransactionManager
  rm : RecoveryManager
deriving DecidableEq

/-- Executing a transaction on a node: the source's execute path never
touches the recovery manager. -/
def NodeSystem.execute_transaction (sys : NodeSystem) (tid : String)
    (operations : List Operation) (arriving : List (String × String)) :
    NodeSystem × Bool :=
  let res := sys.tm.execute_transaction tid operations arriving
  ({ sys with tm := res.1 }, res.2)

/-! ## Replication (src/fault_tolerance/replication.py) -/

/-- A `Replica` (wall-clock heartbeat and state snapshot omitted; not
used by the claims considered). -/
structure Replica where
  replica_id : String
  node_id : String
  is_primary : Bool
  is_active : Bool
deriving DecidableEq

/-- `ReplicationManager` state (strategy and callbacks omitted; they
do not affect primary designation). -/
structure ReplicationManager where
  node_id : String
  replicas : List (String × List Replica)
  primary_replicas : List (String × String)
deriving DecidableEq

/-- `ReplicationManager(node_id)`. -/
def ReplicationManager.init (n : String) : ReplicationManager :=
  ⟨n, [], []⟩

/-- `ReplicationManager.add_replica`: append a fresh active replica
for the key; record it as primary when flagged. -/
def ReplicationManager.add_replica (rm : ReplicationManager)
    (key replica_id node_id : String) (is_primary : Bool) : ReplicationManager :=
  let reps := (lookupA rm.replicas key).getD []
  let rm1 := { rm with replicas := insertA rm.replicas key (reps ++ [⟨replica_id, node_id, is_primary, true⟩]) }
  if is_primary then { rm1 with primary_replicas := insertA rm1.primary_replicas key node_id }
  else rm1

/-- `ReplicationManager.get_primary`. -/
def ReplicationManager.get_primary (rm : ReplicationManager) (key : String) : Option String :=
  lookupA rm.primary_replicas key

/-- `ReplicationManager.promote_replica`: for a known key, set
`is_primary` exactly on the replicas whose node id matches, clear it
on the others; the `primary_replicas[key] = node` assignment sits
inside the matching branch, so it fires only when some replica of the
key carries that node id. -/
def ReplicationManager.promote_replica (rm : ReplicationManager)
    (key replica_node_id : String) : ReplicationManager :=
  match lookupA rm.replicas key with
  | none => rm
  | some reps =>
    let reps2 := reps.map (fun r =>
      if r.node_id == replica_node_id then { r with is_primary := true }
      else { r with is_primary := false })
    let prim :=
      if reps.any (fun r => r.node_id == replica_node_id) then
        insertA rm.primary_replicas key replica_node_id
      else rm.primary_replicas
    { rm with replicas := insertA rm.replicas key reps2, primary_replicas := prim }

/-! ## Helper lemmas -/

theorem lookupA_append_right {α : Type} (l : List (String × α)) (k : String) (v : α)
    (h : lookupA l k = none) : lookupA (l ++ [(k, v)]) k = some v := by
  induction l with
  | nil => simp [lookupA]
  | cons p l ih =>
    by_cases hp : p.1 == k
    · simp [lookupA, hp] at h
    · simp only [lookupA, hp] at h
      simp [lookupA, hp, ih h]

theorem all_mem_congr {p : String → Bool} {l1 l2 : List String}
    (h : ∀ x, x ∈ l1 ↔ x ∈ l2) : l1.all p = l2.all p := by
  cases hb : l2.all p with
  | false =>
    rw [Bool.eq_false_iff]
    intro h1
    rw [List.all_eq_true] at h1
    have h2 : l2.all p = true := List.all_eq_true.mpr (fun x hx => h1 x ((h x).mpr hx))
    rw [h2] at hb
    exact Bool.noConfusion hb
  | true =>
    rw [List.all_eq_true] at hb ⊢
    exact fun x hx => hb x ((h x).mp hx)

theorem any_mem_congr {p : String → Bool} {l1 l2 : List String}
    (h : ∀ x, x ∈ l1 ↔ x ∈ l2) : l1.any p = l2.any p := by
  cases hb : l2.any p with
  | false =>
    rw [Bool.eq_false_iff]
    intro h1
    rw [List.any_eq_true] at h1
    obtain ⟨x, hx, hpx⟩ := h1
    have h2 : l2.any p = true := List.any_eq_true.mpr ⟨x, (h x).mp hx, hpx⟩
    rw [h2] at hb
    exact Bool.noConfusion hb
  | true =>
    rw [List.any_eq_true] at hb ⊢
    obtain ⟨x, hx, hpx⟩ := hb
    exact ⟨x, (h x).mpr hx, hpx⟩

theorem clockNodes_mem_comm (a b : List (String × Nat)) (x : String) :
    x ∈ clockNodes a b ↔ x ∈ clockNodes b a := by
  simp only [clockNodes, List.mem_append]
  exact Or.comm

theorem happened_before_iff (a b : List (String × Nat)) :
    happened_before a b = true ↔
      ((∀ i ∈ clockNodes a b, clockGet a i ≤ clockGet b i) ∧
       ∃ i ∈ clockNodes a b, clockGet a i < clockGet b i) := by
  simp [happened_before, List.all_eq_true, List.any_eq_true]

theorem other_happened_before_eq (a b : List (String × Nat)) :
    other_happened_before a b = happened_before b a := by
  unfold other_happened_before happened_before
  rw [all_mem_congr (clockNodes_mem_comm a b), any_mem_congr (clockNodes_mem_comm a b)]

/-! ## Claim theorems -/

/-- Claim C6: for all vector clocks A and B, `happened_before` is
asymmetric (`happenedBefore(A,B) ⇒ ¬happenedBefore(B,A)`) and
`concurrent` is symmetric (`concurrent(A,B) = concurrent(B,A)`). -/
theorem c6_happened_before_asymm_concurrent_symm (a b : List (String × Nat)) :
    (happened_before a b = true → happened_before b a = false) ∧
    concurrent a b = concurrent b a := by
  constructor
  · intro h
    obtain ⟨hall, j, hj, hlt⟩ := (happened_before_iff a b).mp h
    rw [Bool.eq_false_iff]
    intro h2
    obtain ⟨hall2, -⟩ := (happened_before_iff b a).mp h2
    have hj2 : j ∈ clockNodes b a := (clockNodes_mem_comm a b j).mp hj
    have hle := hall2 j hj2
    omega
  · unfold concurrent
    rw [other_happened_before_eq a b, other_happened_before_eq b a]
    exact Bool.and_comm _ _

/-- Claim C6 witness: the spec scenario clocks `{A:2}` and
`{A:2,B:1}` instantiate both conjuncts. -/
theorem c6_witness :
    happened_before [("A", 2)] [("A", 2), ("B", 1)] = true ∧
    happened_before [("A", 2), ("B", 1)] [("A", 2)] = false ∧
    concurrent [("A", 2)] [("A", 2), ("B", 1)] =
      concurrent [("A", 2), ("B", 1)] [("A", 2)] :=
  ⟨by decide,
   (c6_happened_before_asymm_concurrent_symm [("A", 2)] [("A", 2), ("B", 1)]).1 (by decide),
   (c6_happened_before_asymm_concurrent_symm [("A", 2)] [("A", 2), ("B", 1)]).2⟩

/-- Claim C10: executing a transaction id that is not in the manager's
transaction table returns `False` and leaves the whole manager state
(table, active set, history log, coordinator) unchanged. -/
theorem c10_execute_unknown_id_noop (tm : TransactionManager) (tid : String)
    (operations : List Operation) (arriving : List (String × String))
    (h : lookupA tm.transactions tid = none) :
    tm.execute_transaction tid operations arriving = (tm, false) := by
  unfold TransactionManager.execute_transaction
  rw [h]

/-- Claim C10 witness: a fresh manager has no transaction `"tx"`. -/
theorem c10_witness :
    (TransactionManager.init "n").execute_transaction "tx" [] [] =
      (TransactionManager.init "n", false) :=
  c10_execute_unknown_id_noop (TransactionManager.init "n") "tx" [] [] rfl

/-- Claim C7 counterexample: on the first write of a key the entry is
created with `version = 0`, not 1, so the version counter is not "one
greater than before" on the first write; moreover a second `set` whose
wall-clock reading did not advance (timestamp 5 again) is silently
dropped, so `get` does not even return the written value then. -/
theorem c7_counterexample :
    (((DistributedSharedMemory.init Nat "a").set "k" 7 5).get "k" = some 7) ∧
    ((DistributedSharedMemory.init Nat "a").set "k" 7 5).getVersion "k" ≠ some 1 ∧
    ((((DistributedSharedMemory.init Nat "a").set "k" 7 5).set "k" 9 5).get "k" = some 7) := by
  decide

/-- Claim C7 (amended): `set(k,v)` then local `get(k)` returns v and
the version counter increments by exactly 1, provided the key was
already present and the new wall-clock timestamp is strictly newer;
the first write of a key stores v with version counter 0. -/
theorem c7_set_get_version {V : Type} (m : DistributedSharedMemory V)
    (k : String) (v : V) (t : Nat) :
    (lookupA m.memory k = none →
      (m.set k v t).get k = some v ∧ (m.set k v t).getVersion k = some 0) ∧
    (∀ e, lookupA m.memory k = some e → e.timestamp < t →
      (m.set k v t).get k = some v ∧
      (m.set k v t).getVersion k = some (e.version + 1)) := by
  constructor
  · intro hm
    constructor
    · simp [DistributedSharedMemory.set, hm, DistributedSharedMemory.get,
        lookupA_append_right _ _ _ hm]
    · simp [DistributedSharedMemory.set, hm, DistributedSharedMemory.getVersion,
        lookupA_append_right _ _ _ hm]
  · intro e hm ht
    constructor
    · simp [DistributedSharedMemory.set, hm, DistributedSharedMemory.get,
        lookupA_insertA_self, DSMEntry.updateE, ht]
    · simp [DistributedSharedMemory.set, hm, DistributedSharedMemory.getVersion,
        lookupA_insertA_self, DSMEntry.updateE, ht]

/-- Claim C7 witness: overwriting key `"k"` (stored at timestamp 5,
version 0) at timestamp 6 yields the new value at version 1. -/
theorem c7_witness :
    ((((DistributedSharedMemory.init Nat "a").set "k" 7 5).set "k" 9 6).get "k" = some 9) ∧
    (((DistributedSharedMemory.init Nat "a").set "k" 7 5).set "k" 9 6).getVersion "k" =
      some (0 + 1) :=
  (c7_set_get_version ((DistributedSharedMemory.init Nat "a").set "k" 7 5) "k" 9 6).2
    ⟨"k", 7, 5, "a", 0⟩ (by decide) (by decide)

/-- Claim C9 counterexample: promoting a node id that owns no replica
of the key demotes every replica but leaves the stale primary lookup
in place: `get_primary` still answers the old primary, not the
promoted node. -/
theorem c9_counterexample :
    ((((ReplicationManager.init "m").add_replica "k" "r1" "a" true).promote_replica
        "k" "b").get_primary "k" = some "a") ∧
    ¬ ((((ReplicationManager.init "m").add_replica "k" "r1" "a" true).promote_replica
        "k" "b").get_primary "k" = some "b") ∧
    (lookupA (((ReplicationManager.init "m").add_replica "k" "r1" "a" true).promote_replica
        "k" "b").replicas "k").getD [] = [⟨"r1", "a", false, true⟩] := by
  decide

/-- Claim C9 (amended): provided some replica of key k carries node id
n, after `promote_replica(k,n)` the primary lookup returns n and every
replica of k whose node id is not n has `is_primary = false`. -/
theorem c9_promote_spec (rm : ReplicationManager) (key nid : String)
    (reps : List Replica)
    (h1 : lookupA rm.replicas key = some reps)
    (h2 : reps.any (fun r => r.node_id == nid) = true) :
    (rm.promote_replica key nid).get_primary key = some nid ∧
    ∀ r ∈ (lookupA (rm.promote_replica key nid).replicas key).getD [],
      r.node_id ≠ nid → r.is_primary = false := by
  unfold ReplicationManager.promote_replica ReplicationManager.get_primary
  rw [h1]
  simp only [h2, if_true]
  constructor
  · exact lookupA_insertA_self _ _ _
  · intro r hr hne
    rw [lookupA_insertA_self] at hr
    simp only [Option.getD_some] at hr
    obtain ⟨r0, hr0, rfl⟩ := List.mem_map.mp hr
    by_cases hc : r0.node_id == nid
    · exfalso
      apply hne
      simp only [hc, if_true]
      simpa using hc
    · simp [hc]

/-- Claim C9 witness: two replicas of `"k"` on nodes `"a"` (primary)
and `"b"`; promoting `"b"` makes it the sole primary. -/
theorem c9_witness :
    ((((ReplicationManager.init "m").add_replica "k" "r1" "a" true).add_replica
        "k" "r2" "b" false).promote_replica "k" "b").get_primary "k" = some "b" ∧
    ∀ r ∈ (lookupA ((((ReplicationManager.init "m").add_replica "k" "r1" "a" true).add_replica
        "k" "r2" "b" false).promote_replica "k" "b").replicas "k").getD [],
      r.node_id ≠ "b" → r.is_primary = false :=
  c9_promote_spec
    (((ReplicationManager.init "m").add_replica "k" "r1" "a" true).add_replica
      "k" "r2" "b" false) "k" "b"
    [⟨"r1", "a", true, true⟩, ⟨"r2", "b", false, true⟩] (by decide) (by decide)

/-- Claim C1: REFUTED by the code.  A transaction whose three
participants never deliver any vote before the phase-1 window closes
is still committed: `_phase1_voting` fills every missing vote with
`"COMMIT"` (the opposite of the implicit-ABORT fail-safe), so
`execute` returns `True` and a COMMIT message is sent to every
participant, which then applies the operations in `handle_commit`. -/
theorem c1_missing_votes_treated_as_commit :
    (((TwoPhaseCommit.init "coord").execute "t1" ["p1", "p2", "p3"] ["op1"] []).2 = true) ∧
    ((⟨"p1", "COMMIT", "t1", []⟩ : SentMsg) ∈
      ((TwoPhaseCommit.init "coord").execute "t1" ["p1", "p2", "p3"] ["op1"] []).1.sent) ∧
    (lookupA (((TwoPhaseCommit.init "coord").execute "t1" ["p1", "p2", "p3"] ["op1"] []).1.votes)
      "t1" = some [("p1", "COMMIT"), ("p2", "COMMIT"), ("p3", "COMMIT")]) := by
  decide

/-- Claim C2: REFUTED by the code.  Executing a transaction to a
successful commit writes nothing to the recovery log: no code path of
`TransactionManager.execute_transaction` or `TwoPhaseCommit` calls any
`RecoveryManager`/`TransactionLog` method, so after a successful
`execute` the log holds no START, PREPARE or COMMIT entry for the
transaction id. -/
theorem c2_execute_appends_no_recovery_entries :
    ((NodeSystem.execute_transaction
        ⟨((TransactionManager.init "n").begin_transaction "t1" ["p1", "p2", "p3"]).1,
         RecoveryManager.init "n"⟩ "t1" ["op1"] []).2 = true) ∧
    ((NodeSystem.execute_transaction
        ⟨((TransactionManager.init "n").begin_transaction "t1" ["p1", "p2", "p3"]).1,
         RecoveryManager.init "n"⟩ "t1" ["op1"] []).1.rm.transaction_log.get_transaction_entries
        "t1" = []) := by
  decide

/-- The manager state of claim C3's run: begin `"t1"` with one
participant and execute it to a successful commit. -/
def tmCommitted : TransactionManager :=
  (((TransactionManager.init "n").begin_transaction "t1" ["p1"]).1.execute_transaction
    "t1" ["op1"] []).1

/-- Claim C3: REFUTED by the code.  `Transaction.set_state` has no
terminal-state guard and `abort_transaction` calls it unconditionally,
so a COMMITTED transaction is flipped to ABORTED by a subsequent
`abort_transaction` call on the registry. -/
theorem c3_committed_transaction_aborted :
    ((lookupA tmCommitted.transactions "t1").map (fun t => t.state) =
      some TransactionState.committed) ∧
    ((lookupA (tmCommitted.abort_transaction "t1").transactions "t1").map (fun t => t.state) =
      some TransactionState.aborted) := by
  decide

/-- The recovery log of claim C4's run: START, PREPARE and COMMIT
entries for `"t1"`. -/
def rmLogged : RecoveryManager :=
  (((RecoveryManager.init "n").log_transaction_start "t1" ["p1"]).log_prepare "t1").log_commit "t1"

/-- Claim C4: REFUTED by the code.  `get_uncommitted_transactions`
tests each entry's own `status` field instead of looking for a
terminal record of the id, and START/PREPARE entries carry no status,
so an id whose log ends in a terminal COMMIT entry is still
returned. -/
theorem c4_committed_id_still_reported :
    ("t1" ∈ rmLogged.transaction_log.get_uncommitted_transactions) ∧
    ((⟨"COMMIT", "t1", some "COMMITTED", [], "n"⟩ : LogEntry) ∈
      rmLogged.transaction_log.log) := by
  decide

/-- A causally consistent DSM node, as produced by setting
`consistency_level = "causal"` on a fresh instance. -/
def dsmCausal : DistributedSharedMemory Nat :=
  { DistributedSharedMemory.init Nat "a" with consistency_level := "causal" }

/-- Claim C5: REFUTED by the code.  Under causal consistency the
remote clock is merged first (which the claim requires), but the apply
test then asks whether the already-merged local clock happened before
the remote clock — impossible after the merge — so the value is never
applied, even when no existing entry dominates or conflicts with it,
and no conflict is ever reported to the caller. -/
theorem c5_causal_merges_but_never_applies :
    ((dsmCausal.update_from_remote "k" 1 10 "b" [("b", 1)] 11).vector_clock.clock =
      [("a", 0), ("b", 1)]) ∧
    ((dsmCausal.update_from_remote "k" 1 10 "b" [("b", 1)] 11).get "k" = none) := by
  decide

/-- Claim C8: REFUTED by the code.  `begin_transaction` performs no
validation of the participant list: begun with `[]` it registers the
transaction and returns its id, and `execute_transaction` then commits
it (zero COMMIT votes equal zero participants), so an
empty-participant transaction reaches COMMITTED. -/
theorem c8_empty_participants_accepted_and_committed :
    ((lookupA ((TransactionManager.init "n").begin_transaction "t1" []).1.transactions
        "t1").isSome = true) ∧
    ("t1" ∈ ((TransactionManager.init "n").begin_transaction "t1" []).1.active_transactions) ∧
    ((((TransactionManager.init "n").begin_transaction "t1" []).1.execute_transaction
        "t1" [] []).2 = true) ∧
    ((lookupA (((TransactionManager.init "n").begin_transaction "t1" []).1.execute_transaction
        "t1" [] []).1.transactions "t1").map (fun t => t.state) =
      some TransactionState.committed) := by
  decide

end Capstone
